import Mathlib

/-!
Shallow embedding of `dkist/io/fits.py`: the lazy FITS loader
(`BaseFITSLoader` / `AstropyFITSLoader`) that resolves an
`asdf.ExternalArrayReference` to a FITS file, with deferred, cached reads of
the header and the data array.

File I/O is modelled by threading an explicit `World` through every operation
that the Python code performs against the file system.  Each call to
`fits.open` increments `World.openCount` (the I/O counter) and, on success,
`World.openHandles`; leaving a `with` block decrements `openHandles` again.
Python object identity of headers and arrays is modelled by stamping each
freshly created object with `World.nextId`.
-/

namespace Dkist

/-- The `asdf.ExternalArrayReference` record as consumed by the loader
(a well-formed reference: all four attributes present). -/
structure ExternalArrayReference where
  fileuri : String
  target : Nat
  dtype : String
  shape : List Nat
deriving DecidableEq

/-- A FITS header object (`astropy.io.fits.Header`): a list of cards plus an
identity tag modelling Python object identity.  Python truthiness of a header
is its length being nonzero. -/
structure Header where
  hid : Nat
  cards : List (String × String)
deriving DecidableEq

/-- A numpy ndarray as handed out by `hdu.data`: shape, flat row-major
contents, and an identity tag modelling Python object identity. -/
structure NpArray where
  aid : Nat
  shape : List Nat
  data : List Int
deriving DecidableEq

/-- Python exceptions that the embedded code can raise. -/
inductive PyErr where
  | fileNotFound
  | verifyError
  | indexError
  | attributeError
deriving DecidableEq

/-- One array-bearing HDU of a FITS file as exposed by astropy: header cards,
the stored (unscaled) data with its shape, and the BSCALE/BZERO scaling
keywords. -/
structure HDUContent where
  headerCards : List (String × String)
  dataShape : List Nat
  dataVals : List Int
  bscale : Int
  bzero : Int
deriving DecidableEq

/-- The on-disk content of one FITS file: its HDU list and whether
`hdul.verify("fix")` succeeds on it. -/
structure FitsFileContent where
  hdus : List HDUContent
  verifyOk : Bool
deriving DecidableEq

/-- The file-system world threaded through every I/O operation. -/
structure World where
  fs : String → Option FitsFileContent
  openCount : Nat
  openHandles : Nat
  nextId : Nat

/-- The keyword arguments passed to `fits.open`. -/
structure OpenParams where
  memmap : Bool
  do_not_scale_image_data : Bool
  mode : String
deriving DecidableEq

/-- The open parameters used by `AstropyFITSLoader._read_fits_array`:
`fits.open(self.absolute_uri, memmap=True, do_not_scale_image_data=False,
mode="denywrite")`. -/
def arrayOpenParams : OpenParams :=
  { memmap := true, do_not_scale_image_data := false, mode := "denywrite" }

/-- Embedding of `fits.open(uri)`: an attempt counts as I/O; on success a handle is opened
and the file content becomes available. -/
def fitsOpen (w : World) (uri : String) : Except PyErr FitsFileContent × World :=
  match w.fs uri with
  | none => (Except.error PyErr.fileNotFound, { w with openCount := w.openCount + 1 })
  | some f =>
      (Except.ok f,
       { w with openCount := w.openCount + 1, openHandles := w.openHandles + 1 })

/-- Leaving the `with fits.open(...)` block: the handle is closed. -/
def closeHandle (w : World) : World :=
  { w with openHandles := w.openHandles - 1 }

/-- Embedding of `hdul.verify("fix")`: raises when the best-effort fix-up cannot make the
file conformant. -/
def verifyFix (f : FitsFileContent) : Except PyErr Unit :=
  if f.verifyOk then Except.ok () else Except.error PyErr.verifyError

/-- Embedding of `hdul[target]`: selects the sub-unit, raising IndexError when `target`
names no HDU of the file. -/
def hduAt (f : FitsFileContent) (i : Nat) : Except PyErr HDUContent :=
  match f.hdus[i]? with
  | some h => Except.ok h
  | none => Except.error PyErr.indexError

/-- Embedding of `hdu.header`: materialises a fresh header object for the sub-unit. -/
def HDUContent.headerObj (hdu : HDUContent) (w : World) : Header × World :=
  ({ hid := w.nextId, cards := hdu.headerCards }, { w with nextId := w.nextId + 1 })

/-- Embedding of `hdu.data` under the given open parameters: with
`do_not_scale_image_data=False` astropy applies the BSCALE/BZERO rescaling to
the stored values; with `True` the stored values are returned as they are. -/
def HDUContent.dataObj (hdu : HDUContent) (p : OpenParams) (w : World) : NpArray × World :=
  let vals :=
    if p.do_not_scale_image_data then hdu.dataVals
    else hdu.dataVals.map (fun v => hdu.bscale * v + hdu.bzero)
  ({ aid := w.nextId, shape := hdu.dataShape, data := vals },
   { w with nextId := w.nextId + 1 })

/-- The loader state set up by `BaseFITSLoader.__init__` (every instance in
the repository is an `AstropyFITSLoader`, which adds no state). -/
structure BaseFITSLoader where
  fitsarray : ExternalArrayReference
  basepath : Option String
  _array : Option NpArray
  _fits_header : Option Header
  shape : List Nat
  dtype : String

/-- The constructor `BaseFITSLoader.__init__(externalarray, basepath=None)`. -/
def BaseFITSLoader.init (externalarray : ExternalArrayReference)
    (basepath : Option String) : BaseFITSLoader :=
  { fitsarray := externalarray
    basepath := basepath
    _array := none
    _fits_header := none
    shape := externalarray.shape
    dtype := externalarray.dtype }

/-- Python truthiness of an optional string (`if self.basepath:`):
`None` and the empty string are falsy. -/
def pyTruthyStr : Option String → Bool
  | none => false
  | some s => !(s == "")

/-- Python truthiness of the optional cached header
(`if not self._fits_header:`): `None` and an empty header are falsy. -/
def pyTruthyHeader : Option Header → Bool
  | none => false
  | some h => !h.cards.isEmpty

/-- Two-argument `os.path.join` on posix paths. -/
def osPathJoin (a b : String) : String :=
  if b.startsWith "/" then b
  else if a == "" || a.endsWith "/" then a ++ b
  else a ++ "/" ++ b

/-- The property `BaseFITSLoader.absolute_uri`. -/
def BaseFITSLoader.absolute_uri (l : BaseFITSLoader) : String :=
  if pyTruthyStr l.basepath then osPathJoin (l.basepath.getD "") l.fitsarray.fileuri
  else l.fitsarray.fileuri

/-- Python `str(tuple)` of a shape tuple, as interpolated by `format`. -/
def tupleRepr (xs : List Nat) : String :=
  match xs with
  | [] => "()"
  | [x] => "(" ++ toString x ++ ",)"
  | _ => "(" ++ String.intercalate ", " (xs.map toString) ++ ")"

/-- The fixed-format unloaded summary produced by `__repr__`/`__str__` when
`self._array is None`, built from the reference fields. -/
def unloadedRepr (ea : ExternalArrayReference) : String :=
  "<FITS array (unloaded) in " ++ ea.fileuri ++ " shape: " ++ tupleRepr ea.shape
    ++ " dtype: " ++ ea.dtype ++ ">"

/-- Stand-in for the `repr` text numpy itself produces for an ndarray (external library). -/
def NpArray.reprStr (a : NpArray) : String :=
  "array(" ++ toString a.data ++ ")"

/-- Stand-in for the `str` text numpy itself produces for an ndarray (external library). -/
def NpArray.strStr (a : NpArray) : String :=
  toString a.data

/-- The method `BaseFITSLoader.__repr__`. -/
def BaseFITSLoader.reprStr (l : BaseFITSLoader) : String :=
  match l._array with
  | none => unloadedRepr l.fitsarray
  | some a => NpArray.reprStr a

/-- The method `BaseFITSLoader.__str__`. -/
def BaseFITSLoader.strStr (l : BaseFITSLoader) : String :=
  match l._array with
  | none => unloadedRepr l.fitsarray
  | some a => NpArray.strStr a

/-- The method `AstropyFITSLoader._read_fits_header`:
`with fits.open(self.absolute_uri) as hdul: hdul.verify("fix");
hdu = hdul[self.fitsarray.target]; return hdu.header`.
The `with` block closes the handle on every exit path. -/
def AstropyFITSLoader._read_fits_header (l : BaseFITSLoader) (w : World) :
    Except PyErr Header × World :=
  match fitsOpen w l.absolute_uri with
  | (Except.error e, w1) => (Except.error e, w1)
  | (Except.ok f, w1) =>
      match verifyFix f with
      | Except.error e => (Except.error e, closeHandle w1)
      | Except.ok _ =>
          match hduAt f l.fitsarray.target with
          | Except.error e => (Except.error e, closeHandle w1)
          | Except.ok hdu =>
              match hdu.headerObj w1 with
              | (h, w2) => (Except.ok h, closeHandle w2)

/-- The method `AstropyFITSLoader._read_fits_array`:
`with fits.open(self.absolute_uri, memmap=True, do_not_scale_image_data=False,
mode="denywrite") as hdul: hdul.verify("fix"); hdu = hdul[self.fitsarray.target];
if not self._fits_header: self._fits_header = hdu.header; return hdu.data`.
Mutates the header cache as a side effect, so it also returns the loader. -/
def AstropyFITSLoader._read_fits_array (l : BaseFITSLoader) (w : World) :
    Except PyErr NpArray × BaseFITSLoader × World :=
  match fitsOpen w l.absolute_uri with
  | (Except.error e, w1) => (Except.error e, l, w1)
  | (Except.ok f, w1) =>
      match verifyFix f with
      | Except.error e => (Except.error e, l, closeHandle w1)
      | Except.ok _ =>
          match hduAt f l.fitsarray.target with
          | Except.error e => (Except.error e, l, closeHandle w1)
          | Except.ok hdu =>
              let (l2, w2) :=
                if pyTruthyHeader l._fits_header then (l, w1)
                else
                  match hdu.headerObj w1 with
                  | (h, w1a) => ({ l with _fits_header := some h }, w1a)
              match hdu.dataObj arrayOpenParams w2 with
              | (a, w3) => (Except.ok a, l2, closeHandle w3)

/-- The property `BaseFITSLoader.fits_header`:
`if not self._fits_header: self._fits_header = self._read_fits_header();
return self._fits_header` (dispatching to the astropy implementation). -/
def BaseFITSLoader.fits_header (l : BaseFITSLoader) (w : World) :
    Except PyErr Header × BaseFITSLoader × World :=
  if pyTruthyHeader l._fits_header then
    (Except.ok (l._fits_header.getD { hid := 0, cards := [] }), l, w)
  else
    match AstropyFITSLoader._read_fits_header l w with
    | (Except.error e, w1) => (Except.error e, l, w1)
    | (Except.ok h, w1) => (Except.ok h, { l with _fits_header := some h }, w1)

/-- The property `BaseFITSLoader.fits_array`:
`if self._array is None: self._array = self._read_fits_array();
return self._array` (dispatching to the astropy implementation). -/
def BaseFITSLoader.fits_array (l : BaseFITSLoader) (w : World) :
    Except PyErr NpArray × BaseFITSLoader × World :=
  match l._array with
  | some a => (Except.ok a, l, w)
  | none =>
      match AstropyFITSLoader._read_fits_array l w with
      | (Except.error e, l1, w1) => (Except.error e, l1, w1)
      | (Except.ok a, l1, w1) => (Except.ok a, { l1 with _array := some a }, w1)

/-- The method `BaseFITSLoader.__array__`: `return self.fits_array`. -/
def BaseFITSLoader.__array__ (l : BaseFITSLoader) (w : World) :
    Except PyErr NpArray × BaseFITSLoader × World :=
  BaseFITSLoader.fits_array l w

/-- The call `np.array(loader)` as exercised by the tests: numpy invokes the
`__array__` hook of the loader and, with its default `copy=True`, materialises a fresh
independent copy of the returned ndarray. -/
def np_array (l : BaseFITSLoader) (w : World) :
    Except PyErr NpArray × BaseFITSLoader × World :=
  match BaseFITSLoader.__array__ l w with
  | (Except.error e, l1, w1) => (Except.error e, l1, w1)
  | (Except.ok a, l1, w1) =>
      (Except.ok { aid := w1.nextId, shape := a.shape, data := a.data },
       l1, { w1 with nextId := w1.nextId + 1 })

/-- Shared-buffer mutation semantics of Python ndarrays: writing `newData`
through the object `t` also rewrites the cached array of the loader exactly when
the cache is the very same object (same identity tag). -/
def BaseFITSLoader.afterMutation (l : BaseFITSLoader) (t : NpArray)
    (newData : List Int) : BaseFITSLoader :=
  match l._array with
  | none => l
  | some a =>
      if a.aid = t.aid then { l with _array := some { a with data := newData } }
      else l

/-- One component of a numpy basic-indexing expression: an integer index or a
range `lo:hi` (step 1). -/
inductive IndexItem where
  | idx : Nat → IndexItem
  | rng : Nat → Nat → IndexItem
deriving DecidableEq

/-- Product of the dimensions: the stride of one chunk at this level of a
row-major flat array. -/
def prodList : List Nat → Nat
  | [] => 1
  | d :: ds => d * prodList ds

/-- The i-th chunk of width `stride` of a flat row-major array. -/
def chunk (stride i : Nat) (xs : List Int) : List Int :=
  (xs.drop (i * stride)).take stride

/-- Shape of the result of a numpy basic-indexing expression, `none` when the
expression raises IndexError (integer index out of range, or more index items
than dimensions).  Ranges are clamped as numpy clamps slices. -/
def indexShape : List IndexItem → List Nat → Option (List Nat)
  | [], shape => some shape
  | _ :: _, [] => none
  | IndexItem.idx i :: rest, d :: ds =>
      if i < d then indexShape rest ds else none
  | IndexItem.rng a b :: rest, d :: ds =>
      match indexShape rest ds with
      | some s => some ((min b d - min a (min b d)) :: s)
      | none => none

/-- Flat row-major data of the result of a numpy basic-indexing expression
(meaningful when `indexShape` succeeds). -/
def indexData : List IndexItem → List Nat → List Int → List Int
  | [], _, data => data
  | _ :: _, [], _ => []
  | IndexItem.idx i :: rest, _ :: ds, data =>
      indexData rest ds (chunk (prodList ds) i data)
  | IndexItem.rng a b :: rest, d :: ds, data =>
      let hi := min b d
      let lo := min a hi
      ((List.range (hi - lo)).map
        (fun k => indexData rest ds (chunk (prodList ds) (lo + k) data))).flatten

/-- Embedding of `ndarray[slc]` for a basic-indexing expression: the selected sub-array
(shape and flat contents) or IndexError. -/
def npIndex (a : NpArray) (slc : List IndexItem) :
    Except PyErr (List Nat × List Int) :=
  match indexShape slc a.shape with
  | none => Except.error PyErr.indexError
  | some s => Except.ok (s, indexData slc a.shape a.data)

/-- The method `BaseFITSLoader.__getitem__`: `return self.fits_array[slc]`. -/
def BaseFITSLoader.getitem (l : BaseFITSLoader) (slc : List IndexItem)
    (w : World) : Except PyErr (List Nat × List Int) × BaseFITSLoader × World :=
  match BaseFITSLoader.fits_array l w with
  | (Except.error e, l1, w1) => (Except.error e, l1, w1)
  | (Except.ok a, l1, w1) => (npIndex a slc, l1, w1)

/-- A duck-typed reference whose attributes may be missing, for probing
`__init__` on structurally malformed references. -/
structure PyExternalArrayReference where
  fileuri : Option String
  target : Option Nat
  dtype : Option String
  shape : Option (List Nat)
deriving DecidableEq

/-- The loader state produced by `__init__` on a duck-typed reference. -/
structure PyLoader where
  fitsarray : PyExternalArrayReference
  basepath : Option String
  _array : Option NpArray
  _fits_header : Option Header
  shape : List Nat
  dtype : String
deriving DecidableEq

/-- The constructor `BaseFITSLoader.__init__` run on a duck-typed reference: the body only
stores `externalarray` and `basepath` and then reads the attributes
`shape` and `dtype` (in that order), so a missing `shape` or `dtype` raises
AttributeError while a missing `fileuri` or `target` goes unnoticed; nothing
touches the file system. -/
def BaseFITSLoader.init_duck (externalarray : PyExternalArrayReference)
    (basepath : Option String) : Except PyErr PyLoader :=
  match externalarray.shape with
  | none => Except.error PyErr.attributeError
  | some shp =>
      match externalarray.dtype with
      | none => Except.error PyErr.attributeError
      | some dt =>
          Except.ok
            { fitsarray := externalarray
              basepath := basepath
              _array := none
              _fits_header := none
              shape := shp
              dtype := dt }

/-- The attribute access `loader.shape` threaded through the world: the body
performs no library call, so the world is untouched. -/
def BaseFITSLoader.shape_call (l : BaseFITSLoader) (w : World) :
    List Nat × BaseFITSLoader × World :=
  (l.shape, l, w)

/-- The attribute access `loader.dtype` threaded through the world. -/
def BaseFITSLoader.dtype_call (l : BaseFITSLoader) (w : World) :
    String × BaseFITSLoader × World :=
  (l.dtype, l, w)

/-- The property access `loader.absolute_uri` threaded through the world: its
body is a pure path computation with no library I/O call. -/
def BaseFITSLoader.absolute_uri_call (l : BaseFITSLoader) (w : World) :
    String × BaseFITSLoader × World :=
  (l.absolute_uri, l, w)

/-- The call `repr(loader)` threaded through the world: the body of `__repr__` makes
no I/O call. -/
def BaseFITSLoader.repr_call (l : BaseFITSLoader) (w : World) :
    String × BaseFITSLoader × World :=
  (l.reprStr, l, w)

/-- The call `str(loader)` threaded through the world: the body of `__str__` makes
no I/O call. -/
def BaseFITSLoader.str_call (l : BaseFITSLoader) (w : World) :
    String × BaseFITSLoader × World :=
  (l.strStr, l, w)

/-- The call `BaseFITSLoader(...)` (construction) threaded through the world: `__init__`
makes no I/O call. -/
def BaseFITSLoader.init_call (externalarray : ExternalArrayReference)
    (basepath : Option String) (w : World) : BaseFITSLoader × World :=
  (BaseFITSLoader.init externalarray basepath, w)

lemma empty_append_str (b : String) : "" ++ b = b := by
  cases b with
  | mk d => rfl

lemma osPathJoin_empty (b : String) : osPathJoin "" b = b := by
  unfold osPathJoin
  cases hsw : b.startsWith "/" with
  | true => simp [hsw]
  | false => simp [hsw, empty_append_str]

/-- Boolean success test for an embedded Python computation. -/
def exceptOk {α : Type} : Except PyErr α → Bool
  | Except.ok _ => true
  | Except.error _ => false

/-! Helper lemmas about the read operations. -/

lemma read_header_handles (l : BaseFITSLoader) (w : World) :
    (AstropyFITSLoader._read_fits_header l w).2.openHandles = w.openHandles := by
  cases hfs : w.fs l.absolute_uri with
  | none => simp [AstropyFITSLoader._read_fits_header, fitsOpen, hfs]
  | some f =>
      cases hv : f.verifyOk with
      | false =>
          simp [AstropyFITSLoader._read_fits_header, fitsOpen, hfs, verifyFix, hv,
            closeHandle]
      | true =>
          cases hh : f.hdus[l.fitsarray.target]? with
          | none =>
              simp [AstropyFITSLoader._read_fits_header, fitsOpen, hfs, verifyFix, hv,
                hduAt, hh, closeHandle]
          | some hdu =>
              simp [AstropyFITSLoader._read_fits_header, fitsOpen, hfs, verifyFix, hv,
                hduAt, hh, HDUContent.headerObj, closeHandle]

lemma read_array_handles (l : BaseFITSLoader) (w : World) :
    (AstropyFITSLoader._read_fits_array l w).2.2.openHandles = w.openHandles := by
  cases hfs : w.fs l.absolute_uri with
  | none => simp [AstropyFITSLoader._read_fits_array, fitsOpen, hfs]
  | some f =>
      cases hv : f.verifyOk with
      | false =>
          simp [AstropyFITSLoader._read_fits_array, fitsOpen, hfs, verifyFix, hv,
            closeHandle]
      | true =>
          cases hh : f.hdus[l.fitsarray.target]? with
          | none =>
              simp [AstropyFITSLoader._read_fits_array, fitsOpen, hfs, verifyFix, hv,
                hduAt, hh, closeHandle]
          | some hdu =>
              cases ht : pyTruthyHeader l._fits_header <;>
                simp [AstropyFITSLoader._read_fits_array, fitsOpen, hfs, verifyFix, hv,
                  hduAt, hh, ht, HDUContent.headerObj, HDUContent.dataObj, closeHandle]

lemma fits_header_handles (l : BaseFITSLoader) (w : World) :
    (BaseFITSLoader.fits_header l w).2.2.openHandles = w.openHandles := by
  unfold BaseFITSLoader.fits_header
  cases ht : pyTruthyHeader l._fits_header with
  | true => simp
  | false =>
      have hrd := read_header_handles l w
      rcases hr : AstropyFITSLoader._read_fits_header l w with ⟨r, w1⟩
      rw [hr] at hrd
      cases r <;> simpa using hrd

lemma fits_array_handles (l : BaseFITSLoader) (w : World) :
    (BaseFITSLoader.fits_array l w).2.2.openHandles = w.openHandles := by
  unfold BaseFITSLoader.fits_array
  cases hc : l._array with
  | some a => simp
  | none =>
      have hrd := read_array_handles l w
      rcases hr : AstropyFITSLoader._read_fits_array l w with ⟨r, l1, w1⟩
      rw [hr] at hrd
      cases r <;> simpa using hrd

lemma fits_array_of_some (l : BaseFITSLoader) (w : World) (a : NpArray)
    (h : l._array = some a) :
    BaseFITSLoader.fits_array l w = (Except.ok a, l, w) := by
  unfold BaseFITSLoader.fits_array
  rw [h]

lemma fits_header_of_truthy (l : BaseFITSLoader) (w : World) (hd : Header)
    (h : l._fits_header = some hd) (hne : hd.cards ≠ []) :
    BaseFITSLoader.fits_header l w = (Except.ok hd, l, w) := by
  unfold BaseFITSLoader.fits_header
  have ht : pyTruthyHeader l._fits_header = true := by
    simp [pyTruthyHeader, h, List.isEmpty_iff, hne]
  rw [ht]
  simp [h]

lemma fits_array_populates (l l1 : BaseFITSLoader) (w w1 : World) (a : NpArray)
    (h : BaseFITSLoader.fits_array l w = (Except.ok a, l1, w1)) :
    l1._array = some a := by
  unfold BaseFITSLoader.fits_array at h
  cases hc : l._array with
  | some a0 =>
      rw [hc] at h
      simp only [Prod.mk.injEq, Except.ok.injEq] at h
      obtain ⟨h1, h2, -⟩ := h
      rw [← h2, hc, h1]
  | none =>
      rw [hc] at h
      rcases hr : AstropyFITSLoader._read_fits_array l w with ⟨r, l2, w2⟩
      rw [hr] at h
      cases r with
      | error e => simp at h
      | ok b =>
          simp only [Prod.mk.injEq, Except.ok.injEq] at h
          obtain ⟨h1, h2, -⟩ := h
          rw [← h2, h1]

/-- C1: a freshly constructed loader copies `shape`/`dtype` from the
reference, starts with both caches empty, and neither construction nor
`repr`/`str`/`shape`/`dtype`/`absolute_uri` touches the world (no file I/O,
no cache population). -/
theorem C1_fresh_loader_no_io (ea : ExternalArrayReference) (bp : Option String)
    (w : World) :
    (BaseFITSLoader.init ea bp).shape = ea.shape ∧
    (BaseFITSLoader.init ea bp).dtype = ea.dtype ∧
    (BaseFITSLoader.init ea bp)._array = none ∧
    (BaseFITSLoader.init ea bp)._fits_header = none ∧
    BaseFITSLoader.init_call ea bp w = (BaseFITSLoader.init ea bp, w) ∧
    (∀ l : BaseFITSLoader,
      BaseFITSLoader.repr_call l w = (l.reprStr, l, w) ∧
      BaseFITSLoader.str_call l w = (l.strStr, l, w) ∧
      BaseFITSLoader.shape_call l w = (l.shape, l, w) ∧
      BaseFITSLoader.dtype_call l w = (l.dtype, l, w) ∧
      BaseFITSLoader.absolute_uri_call l w = (l.absolute_uri, l, w)) :=
  ⟨rfl, rfl, rfl, rfl, rfl, fun _ => ⟨rfl, rfl, rfl, rfl, rfl⟩⟩

/-- C4: `absolute_uri` equals `os.path.join(basepath, fileuri)` whenever a
basepath is present and the raw `fileuri` otherwise, and computing it is a
pure function of the loader state that performs no I/O. -/
theorem C4_absolute_uri (l : BaseFITSLoader) (w : World) :
    l.absolute_uri =
      (match l.basepath with
       | some bp => osPathJoin bp l.fitsarray.fileuri
       | none => l.fitsarray.fileuri) ∧
    BaseFITSLoader.absolute_uri_call l w = (l.absolute_uri, l, w) := by
  refine ⟨?_, rfl⟩
  unfold BaseFITSLoader.absolute_uri
  cases hb : l.basepath with
  | none => simp [pyTruthyStr]
  | some s =>
      by_cases hs : s = ""
      · subst hs
        have ht : pyTruthyStr (some "") = false := by decide
        simp only [ht, Bool.false_eq_true, if_false, osPathJoin_empty]
      · have ht : pyTruthyStr (some s) = true := by
          simp [pyTruthyStr, hs]
        simp [ht]

lemma read_fits_header_eval (l : BaseFITSLoader) (w : World) (f : FitsFileContent)
    (hdu : HDUContent) (hfs : w.fs l.absolute_uri = some f) (hv : f.verifyOk = true)
    (hh : f.hdus[l.fitsarray.target]? = some hdu) :
    AstropyFITSLoader._read_fits_header l w =
      (Except.ok { hid := w.nextId, cards := hdu.headerCards },
       { w with openCount := w.openCount + 1, nextId := w.nextId + 1 }) := by
  simp [AstropyFITSLoader._read_fits_header, fitsOpen, hfs, verifyFix, hv, hduAt, hh,
    HDUContent.headerObj, closeHandle]

lemma read_fits_array_eval_truthy (l : BaseFITSLoader) (w : World)
    (f : FitsFileContent) (hdu : HDUContent) (hfs : w.fs l.absolute_uri = some f)
    (hv : f.verifyOk = true) (hh : f.hdus[l.fitsarray.target]? = some hdu)
    (ht : pyTruthyHeader l._fits_header = true) :
    AstropyFITSLoader._read_fits_array l w =
      (Except.ok
        { aid := w.nextId, shape := hdu.dataShape,
          data := hdu.dataVals.map (fun v => hdu.bscale * v + hdu.bzero) },
       l,
       { w with openCount := w.openCount + 1, nextId := w.nextId + 1 }) := by
  simp [AstropyFITSLoader._read_fits_array, fitsOpen, hfs, verifyFix, hv, hduAt, hh, ht,
    HDUContent.dataObj, arrayOpenParams, closeHandle]

lemma read_fits_array_eval_untruthy (l : BaseFITSLoader) (w : World)
    (f : FitsFileContent) (hdu : HDUContent) (hfs : w.fs l.absolute_uri = some f)
    (hv : f.verifyOk = true) (hh : f.hdus[l.fitsarray.target]? = some hdu)
    (ht : pyTruthyHeader l._fits_header = false) :
    AstropyFITSLoader._read_fits_array l w =
      (Except.ok
        { aid := w.nextId + 1, shape := hdu.dataShape,
          data := hdu.dataVals.map (fun v => hdu.bscale * v + hdu.bzero) },
       { l with _fits_header := some { hid := w.nextId, cards := hdu.headerCards } },
       { w with openCount := w.openCount + 1, nextId := w.nextId + 2 }) := by
  simp [AstropyFITSLoader._read_fits_array, fitsOpen, hfs, verifyFix, hv, hduAt, hh, ht,
    HDUContent.headerObj, HDUContent.dataObj, arrayOpenParams, closeHandle]

/-- C6, amended: construction on a duck-typed reference succeeds exactly when
the `shape` and `dtype` attributes are present (raising AttributeError
otherwise); missing `fileuri`/`target` go unnoticed at construction time, and
no file access happens (the computation never consults a world). -/
theorem C6_init_validation (r : PyExternalArrayReference) (bp : Option String) :
    BaseFITSLoader.init_duck r bp =
      (match r.shape, r.dtype with
       | some shp, some dt =>
           Except.ok
             { fitsarray := r, basepath := bp, _array := none,
               _fits_header := none, shape := shp, dtype := dt }
       | some _, none => Except.error PyErr.attributeError
       | none, _ => Except.error PyErr.attributeError) := by
  unfold BaseFITSLoader.init_duck
  cases r.shape <;> cases r.dtype <;> rfl

/-- A reference missing the required fields `fileuri` and `target`. -/
def C6badRef : PyExternalArrayReference :=
  { fileuri := none, target := none, dtype := some "float64",
    shape := some [128, 128] }

/-- C6, counterexample: a structurally malformed reference (missing the
required fields `fileuri` and `target`) does not make construction fail, so
construction does not fail on every malformed reference as claimed. -/
theorem C6_counterexample :
    C6badRef.fileuri = none ∧ C6badRef.target = none ∧
    exceptOk (BaseFITSLoader.init_duck C6badRef none) = true :=
  ⟨rfl, rfl, rfl⟩

/-- C8: the textual representation is the fixed-format unloaded summary built
from the reference fields (its original `fileuri`, not the resolved absolute
path) when the array cache is empty, and the representation of the underlying
array itself when it is populated; neither computation touches the world. -/
theorem C8_textual_representation (l : BaseFITSLoader) (w : World) :
    l.reprStr =
      (match l._array with
       | none =>
           "<FITS array (unloaded) in " ++ l.fitsarray.fileuri ++ " shape: "
             ++ tupleRepr l.fitsarray.shape ++ " dtype: " ++ l.fitsarray.dtype ++ ">"
       | some a => NpArray.reprStr a) ∧
    l.strStr =
      (match l._array with
       | none =>
           "<FITS array (unloaded) in " ++ l.fitsarray.fileuri ++ " shape: "
             ++ tupleRepr l.fitsarray.shape ++ " dtype: " ++ l.fitsarray.dtype ++ ">"
       | some a => NpArray.strStr a) ∧
    BaseFITSLoader.repr_call l w = (l.reprStr, l, w) ∧
    BaseFITSLoader.str_call l w = (l.strStr, l, w) := by
  refine ⟨?_, ?_, rfl, rfl⟩ <;>
    cases h : l._array <;>
      simp [BaseFITSLoader.reprStr, BaseFITSLoader.strStr, unloadedRepr, h]

/-- C10: every header read and every array read leaves the number of open
handles exactly as it found it, on the success path and on every failure path
(missing file, failed verification, target index out of range), both for the
raw read operations and for the caching accessors. -/
theorem C10_handles_closed (l : BaseFITSLoader) (w : World) :
    (AstropyFITSLoader._read_fits_header l w).2.openHandles = w.openHandles ∧
    (AstropyFITSLoader._read_fits_array l w).2.2.openHandles = w.openHandles ∧
    (BaseFITSLoader.fits_header l w).2.2.openHandles = w.openHandles ∧
    (BaseFITSLoader.fits_array l w).2.2.openHandles = w.openHandles :=
  ⟨read_header_handles l w, read_array_handles l w,
   fits_header_handles l w, fits_array_handles l w⟩

/-! Concrete sample data used by witnesses and counterexamples. -/

def sampleHdu : HDUContent :=
  { headerCards := [("NAXIS", "2")], dataShape := [2, 2], dataVals := [1, 2, 3, 4],
    bscale := 1, bzero := 0 }

def sampleFile : FitsFileContent := { hdus := [sampleHdu], verifyOk := true }

def sampleRef : ExternalArrayReference :=
  { fileuri := "a.fits", target := 0, dtype := "float64", shape := [2, 2] }

def sampleWorld : World :=
  { fs := fun u => if u = "a.fits" then some sampleFile else none,
    openCount := 0, openHandles := 0, nextId := 0 }

def sampleLoader : BaseFITSLoader := BaseFITSLoader.init sampleRef none

/-- C2, amended: a populated array cache and a populated non-empty header
cache are returned as the identity-same objects by their accessors, with
loader and world untouched (no re-read); a successful array accessor call
stores exactly the returned object in the cache. -/
theorem C2_cache_stable (l : BaseFITSLoader) (w : World) :
    (∀ a : NpArray, l._array = some a →
      BaseFITSLoader.fits_array l w = (Except.ok a, l, w)) ∧
    (∀ hd : Header, l._fits_header = some hd → hd.cards ≠ [] →
      BaseFITSLoader.fits_header l w = (Except.ok hd, l, w)) ∧
    (∀ (a : NpArray) (l1 : BaseFITSLoader) (w1 : World),
      BaseFITSLoader.fits_array l w = (Except.ok a, l1, w1) → l1._array = some a) :=
  ⟨fun a h => fits_array_of_some l w a h,
   fun hd h hne => fits_header_of_truthy l w hd h hne,
   fun a l1 w1 h => fits_array_populates l l1 w w1 a h⟩

def C2cachedLoader : BaseFITSLoader :=
  { fitsarray := sampleRef, basepath := none,
    _array := some { aid := 7, shape := [2, 2], data := [1, 2, 3, 4] },
    _fits_header := some { hid := 3, cards := [("NAXIS", "2")] },
    shape := [2, 2], dtype := "float64" }

def C2cachedWorld : World :=
  { fs := fun _ => none, openCount := 0, openHandles := 0, nextId := 8 }

theorem C2_cache_stable_witness :
    BaseFITSLoader.fits_array C2cachedLoader C2cachedWorld =
      (Except.ok { aid := 7, shape := [2, 2], data := [1, 2, 3, 4] },
       C2cachedLoader, C2cachedWorld) ∧
    BaseFITSLoader.fits_header C2cachedLoader C2cachedWorld =
      (Except.ok { hid := 3, cards := [("NAXIS", "2")] },
       C2cachedLoader, C2cachedWorld) :=
  ⟨(C2_cache_stable C2cachedLoader C2cachedWorld).1 _ rfl,
   (C2_cache_stable C2cachedLoader C2cachedWorld).2.1 _ rfl (by decide)⟩

def C2emptyFile : FitsFileContent :=
  { hdus := [{ headerCards := [], dataShape := [1], dataVals := [5],
               bscale := 1, bzero := 0 }],
    verifyOk := true }

def C2emptyWorld : World :=
  { fs := fun u => if u = "e.fits" then some C2emptyFile else none,
    openCount := 0, openHandles := 0, nextId := 0 }

def C2emptyLoader : BaseFITSLoader :=
  BaseFITSLoader.init
    { fileuri := "e.fits", target := 0, dtype := "int64", shape := [1] } none

def C2loader1 : BaseFITSLoader :=
  (BaseFITSLoader.fits_header C2emptyLoader C2emptyWorld).2.1

def C2world1 : World :=
  (BaseFITSLoader.fits_header C2emptyLoader C2emptyWorld).2.2

/-- C2, counterexample: after a read populates the header cache with an empty
header, a second header accessor call re-opens the file and replaces the
cached object with a new one (different identity), contradicting the claim
for the empty-header case. -/
theorem C2_counterexample :
    (BaseFITSLoader.fits_header C2emptyLoader C2emptyWorld).1 =
      Except.ok { hid := 0, cards := [] } ∧
    C2loader1._fits_header = some { hid := 0, cards := [] } ∧
    C2world1.openCount = 1 ∧
    (BaseFITSLoader.fits_header C2loader1 C2world1).1 =
      Except.ok { hid := 1, cards := [] } ∧
    (BaseFITSLoader.fits_header C2loader1 C2world1).2.1._fits_header =
      some { hid := 1, cards := [] } ∧
    (BaseFITSLoader.fits_header C2loader1 C2world1).2.2.openCount = 2 ∧
    ({ hid := 1, cards := [] } : Header) ≠ { hid := 0, cards := [] } :=
  ⟨rfl, rfl, rfl, rfl, rfl, rfl, by decide⟩

/-- C3, amended: during an array read, an absent header cache is populated
from the sub-unit metadata of the same open file, and a later header accessor call
performs no further file open provided that header is non-empty; a previously
cached non-empty header is left untouched by the array read. -/
theorem C3_array_read_header_effect (l : BaseFITSLoader) (w : World)
    (f : FitsFileContent) (hdu : HDUContent)
    (hfs : w.fs l.absolute_uri = some f) (hv : f.verifyOk = true)
    (hh : f.hdus[l.fitsarray.target]? = some hdu) :
    (l._fits_header = none →
      (AstropyFITSLoader._read_fits_array l w).2.1._fits_header =
        some { hid := w.nextId, cards := hdu.headerCards } ∧
      (hdu.headerCards ≠ [] → ∀ w2 : World,
        BaseFITSLoader.fits_header (AstropyFITSLoader._read_fits_array l w).2.1 w2 =
          (Except.ok { hid := w.nextId, cards := hdu.headerCards },
           (AstropyFITSLoader._read_fits_array l w).2.1, w2))) ∧
    (∀ hd : Header, l._fits_header = some hd → hd.cards ≠ [] →
      (AstropyFITSLoader._read_fits_array l w).2.1._fits_header = some hd) := by
  constructor
  · intro hnone
    have ht : pyTruthyHeader l._fits_header = false := by
      simp [pyTruthyHeader, hnone]
    rw [read_fits_array_eval_untruthy l w f hdu hfs hv hh ht]
    refine ⟨rfl, fun hne w2 => ?_⟩
    exact fits_header_of_truthy _ w2 _ rfl hne
  · intro hd hsome hne
    have ht : pyTruthyHeader l._fits_header = true := by
      simp [pyTruthyHeader, hsome, List.isEmpty_iff, hne]
    rw [read_fits_array_eval_truthy l w f hdu hfs hv hh ht]
    exact hsome

theorem C3_witness :
    (AstropyFITSLoader._read_fits_array sampleLoader sampleWorld).2.1._fits_header =
      some { hid := 0, cards := [("NAXIS", "2")] } ∧
    BaseFITSLoader.fits_header
        (AstropyFITSLoader._read_fits_array sampleLoader sampleWorld).2.1 sampleWorld =
      (Except.ok { hid := 0, cards := [("NAXIS", "2")] },
       (AstropyFITSLoader._read_fits_array sampleLoader sampleWorld).2.1,
       sampleWorld) := by
  have h :=
    (C3_array_read_header_effect sampleLoader sampleWorld sampleFile sampleHdu
      rfl rfl rfl).1 rfl
  exact ⟨h.1, h.2 (by decide) sampleWorld⟩

def C3staleLoader : BaseFITSLoader :=
  { fitsarray := sampleRef, basepath := none, _array := none,
    _fits_header := some { hid := 5, cards := [] },
    shape := [2, 2], dtype := "float64" }

/-- C3, counterexample: a header that was already cached before the array read
but is empty is not left untouched: the array read overwrites it with a fresh
header object, contradicting the claim as stated. -/
theorem C3_counterexample :
    C3staleLoader._fits_header = some { hid := 5, cards := [] } ∧
    (AstropyFITSLoader._read_fits_array C3staleLoader sampleWorld).2.1._fits_header =
      some { hid := 0, cards := [("NAXIS", "2")] } ∧
    some ({ hid := 0, cards := [("NAXIS", "2")] } : Header) ≠
      some { hid := 5, cards := [] } :=
  ⟨rfl, rfl, by decide⟩

def C5hdu : HDUContent :=
  { headerCards := [("BSCALE", "2"), ("BZERO", "1")], dataShape := [1],
    dataVals := [3], bscale := 2, bzero := 1 }

def C5file : FitsFileContent := { hdus := [C5hdu], verifyOk := true }

def C5world : World :=
  { fs := fun u => if u = "s.fits" then some C5file else none,
    openCount := 0, openHandles := 0, nextId := 0 }

def C5loader : BaseFITSLoader :=
  BaseFITSLoader.init
    { fileuri := "s.fits", target := 0, dtype := "int16", shape := [1] } none

/-- C5: the array read opens the file read-only (`mode="denywrite"`) and
memory-mapping-friendly (`memmap=True`), but it passes
`do_not_scale_image_data=False`, so on a file carrying BSCALE/BZERO keywords
the returned array holds the implicitly rescaled values, not the stored ones:
stored `[3]` with BSCALE 2 and BZERO 1 comes back as `[7]`. -/
theorem C5_rescaling_divergence :
    arrayOpenParams.memmap = true ∧
    arrayOpenParams.mode = "denywrite" ∧
    arrayOpenParams.do_not_scale_image_data = false ∧
    C5hdu.dataVals = [3] ∧
    (AstropyFITSLoader._read_fits_array C5loader C5world).1 =
      Except.ok { aid := 1, shape := [1], data := [7] } ∧
    ([7] : List Int) ≠ C5hdu.dataVals :=
  ⟨rfl, rfl, rfl, rfl, rfl, by decide⟩

lemma read_array_aid_lt (l l2 : BaseFITSLoader) (w w2 : World) (b : NpArray)
    (h : AstropyFITSLoader._read_fits_array l w = (Except.ok b, l2, w2)) :
    b.aid < w2.nextId := by
  cases hfs : w.fs l.absolute_uri with
  | none => simp [AstropyFITSLoader._read_fits_array, fitsOpen, hfs] at h
  | some f =>
      cases hv : f.verifyOk with
      | false =>
          simp [AstropyFITSLoader._read_fits_array, fitsOpen, hfs, verifyFix, hv] at h
      | true =>
          cases hh : f.hdus[l.fitsarray.target]? with
          | none =>
              simp [AstropyFITSLoader._read_fits_array, fitsOpen, hfs, verifyFix, hv,
                hduAt, hh] at h
          | some hdu =>
              cases ht : pyTruthyHeader l._fits_header with
              | true =>
                  rw [read_fits_array_eval_truthy l w f hdu hfs hv hh ht] at h
                  simp only [Prod.mk.injEq, Except.ok.injEq] at h
                  obtain ⟨hb, -, hw⟩ := h
                  rw [← hb, ← hw]
                  exact Nat.lt_succ_self _
              | false =>
                  rw [read_fits_array_eval_untruthy l w f hdu hfs hv hh ht] at h
                  simp only [Prod.mk.injEq, Except.ok.injEq] at h
                  obtain ⟨hb, -, hw⟩ := h
                  rw [← hb, ← hw]
                  exact Nat.lt_succ_self (w.nextId + 1)

lemma fits_array_aid_lt (l l1 : BaseFITSLoader) (w w1 : World) (a : NpArray)
    (hwf : ∀ b : NpArray, l._array = some b → b.aid < w.nextId)
    (h : BaseFITSLoader.fits_array l w = (Except.ok a, l1, w1)) :
    a.aid < w1.nextId := by
  unfold BaseFITSLoader.fits_array at h
  cases hc : l._array with
  | some a0 =>
      rw [hc] at h
      simp only [Prod.mk.injEq, Except.ok.injEq] at h
      obtain ⟨h1, -, h3⟩ := h
      rw [← h1, ← h3]
      exact hwf a0 hc
  | none =>
      rw [hc] at h
      rcases hr : AstropyFITSLoader._read_fits_array l w with ⟨r, l2, w2⟩
      rw [hr] at h
      cases r with
      | error e => simp at h
      | ok b =>
          simp only [Prod.mk.injEq, Except.ok.injEq] at h
          obtain ⟨h1, -, h3⟩ := h
          rw [← h1, ← h3]
          exact read_array_aid_lt l l2 w w2 b hr

/-- C7: converting the loader to a plain array (`np.array(loader)`, through
`__array__`) forces population of the array cache, returns an array that is
element-wise equal to the cached array but is a distinct object, and mutating
the returned object never changes the cache. -/
theorem C7_plain_array_copy (l : BaseFITSLoader) (w : World)
    (hwf : ∀ b : NpArray, l._array = some b → b.aid < w.nextId)
    (c : NpArray) (l1 : BaseFITSLoader) (w1 : World)
    (h : np_array l w = (Except.ok c, l1, w1)) :
    ∃ a : NpArray, l1._array = some a ∧ c.data = a.data ∧ c.shape = a.shape ∧
      c.aid ≠ a.aid ∧
      ∀ nd : List Int, BaseFITSLoader.afterMutation l1 c nd = l1 := by
  unfold np_array BaseFITSLoader.__array__ at h
  rcases hr : BaseFITSLoader.fits_array l w with ⟨r, l2, w2⟩
  rw [hr] at h
  cases r with
  | error e => simp at h
  | ok a =>
      simp only [Prod.mk.injEq, Except.ok.injEq] at h
      obtain ⟨h1, h2, -⟩ := h
      have hpop : l2._array = some a := fits_array_populates l l2 w w2 a hr
      have haid : a.aid < w2.nextId := fits_array_aid_lt l l2 w w2 a hwf hr
      subst h2
      have hc : c = { aid := w2.nextId, shape := a.shape, data := a.data } := h1.symm
      subst hc
      refine ⟨a, hpop, rfl, rfl, (Nat.ne_of_lt haid).symm, ?_⟩
      intro nd
      unfold BaseFITSLoader.afterMutation
      rw [hpop]
      simp only []
      rw [if_neg (Nat.ne_of_lt haid)]

def C7copy : NpArray := { aid := 2, shape := [2, 2], data := [1, 2, 3, 4] }

def C7loader1 : BaseFITSLoader := (np_array sampleLoader sampleWorld).2.1

def C7world1 : World := (np_array sampleLoader sampleWorld).2.2

theorem C7_plain_array_copy_witness :
    ∃ a : NpArray, C7loader1._array = some a ∧ C7copy.data = a.data ∧
      C7copy.shape = a.shape ∧ C7copy.aid ≠ a.aid ∧
      ∀ nd : List Int, BaseFITSLoader.afterMutation C7loader1 C7copy nd = C7loader1 :=
  C7_plain_array_copy sampleLoader sampleWorld
    (by intro b hb; simp [sampleLoader, BaseFITSLoader.init] at hb)
    C7copy C7loader1 C7world1 rfl

/-- C9: indexing the loader forces population of the array cache and returns
exactly the sub-selection obtained by applying the same index expression to
the fully materialised cached array (with numpy basic-indexing semantics:
integer indices, ranges, and their combinations across dimensions). -/
theorem C9_getitem_slicing (l : BaseFITSLoader) (w : World) (slc : List IndexItem)
    (a : NpArray) (l1 : BaseFITSLoader) (w1 : World)
    (h : BaseFITSLoader.fits_array l w = (Except.ok a, l1, w1)) :
    l1._array = some a ∧
    BaseFITSLoader.getitem l slc w = (npIndex a slc, l1, w1) ∧
    (∀ b : NpArray, l1._array = some b →
      BaseFITSLoader.getitem l slc w = (npIndex b slc, l1, w1)) := by
  have hpop : l1._array = some a := fits_array_populates l l1 w w1 a h
  refine ⟨hpop, ?_, ?_⟩
  · unfold BaseFITSLoader.getitem
    rw [h]
  · intro b hb
    rw [hpop] at hb
    obtain rfl : a = b := Option.some.inj hb
    unfold BaseFITSLoader.getitem
    rw [h]

def C9hdu : HDUContent :=
  { headerCards := [("NAXIS", "2")], dataShape := [4, 4],
    dataVals := [0, 1, 2, 3, 10, 11, 12, 13, 20, 21, 22, 23, 30, 31, 32, 33],
    bscale := 1, bzero := 0 }

def C9file : FitsFileContent := { hdus := [C9hdu], verifyOk := true }

def C9world : World :=
  { fs := fun u => if u = "g.fits" then some C9file else none,
    openCount := 0, openHandles := 0, nextId := 0 }

def C9loader : BaseFITSLoader :=
  BaseFITSLoader.init
    { fileuri := "g.fits", target := 0, dtype := "float64", shape := [4, 4] } none

def C9slc : List IndexItem := [IndexItem.rng 1 3, IndexItem.rng 1 3]

def C9arr : NpArray :=
  { aid := 1, shape := [4, 4],
    data := [0, 1, 2, 3, 10, 11, 12, 13, 20, 21, 22, 23, 30, 31, 32, 33] }

def C9loader1 : BaseFITSLoader := (BaseFITSLoader.fits_array C9loader C9world).2.1

def C9world1 : World := (BaseFITSLoader.fits_array C9loader C9world).2.2

theorem C9_getitem_slicing_witness :
    (C9loader1._array = some C9arr ∧
     BaseFITSLoader.getitem C9loader C9slc C9world = (npIndex C9arr C9slc, C9loader1, C9world1) ∧
     (∀ b : NpArray, C9loader1._array = some b →
       BaseFITSLoader.getitem C9loader C9slc C9world = (npIndex b C9slc, C9loader1, C9world1))) ∧
    npIndex C9arr C9slc = Except.ok ([2, 2], [11, 12, 21, 22]) :=
  ⟨C9_getitem_slicing C9loader C9world C9slc C9arr C9loader1 C9world1 rfl, rfl⟩

end Dkist
